import Mathlib

/-!
Shallow embedding of the credential-lifecycle and session-multiplexing
subsystem of the poke-whoop-mcp repository.

Sources embedded:
- src/src/auth/token-store.ts (TokenStore over a JSON mapping file)
- src/unnamed/part_001 (FileTokenStore, identical file-backed logic)
- src/src/auth/whoop-oauth.ts (WhoopOAuthClient)
- src/src/whoop/client.ts (WhoopApiClient.getAccessToken)
- src/unnamed/part_000 (express server: OAuth callback handler over
  pendingStates, POST /sse handler over the transports map)

Modelling conventions:
- The JSON token file is modelled by its parsed contents, a finite mapping
  from account key to TokenSet (the code reads the whole file, mutates the
  object, and rewrites the whole file; each get/set/clear is one atomic
  step over that mapping).
- `Date.now()` is passed in as an explicit `now : Int` (epoch millis).
- Each outbound HTTP POST to the token endpoint is modelled by an oracle
  argument giving the outcome of that call: `Except String OAuthTokenResponse`.
  For a refresh, the oracle is a function of the refresh token the code
  puts in the request body, so theorems can observe which token was sent.
- `crypto.randomUUID()` is passed in as an explicit argument.
- In the TypeScript type `OAuthTokenResponse`, `refresh_token` is declared
  as `string`, but the code guards it with a nullish-coalescing chain
  (`data.refresh_token ?? previous?.refreshToken ?? empty-string`), so at runtime it
  may be absent; it is modelled as `Option String`.
-/

/-- TokenSet (token-store.ts lines 5-11): one stored credential set. -/
structure TokenSet where
  accessToken : String
  refreshToken : String
  /-- epoch millis -/
  expiresAt : Int
  scope : String
  tokenType : String
deriving Repr, DecidableEq

/-- TokenFileContents (token-store.ts lines 13-16): the parsed token file, a
mapping from account key to TokenSet. -/
abbrev TokenFileContents := String → Option TokenSet

namespace TokenStore

/-- TokenStore.get (token-store.ts lines 61-64): `contents[key] ?? null`. -/
def get (contents : TokenFileContents) (key : String) : Option TokenSet :=
  contents key

/-- TokenStore.set (token-store.ts lines 66-70): `contents[key] = tokenSet`
then rewrite the file. -/
def set (contents : TokenFileContents) (tokenSet : TokenSet) (key : String) :
    TokenFileContents :=
  fun k => if k = key then some tokenSet else contents k

/-- TokenStore.clear (token-store.ts lines 72-76): `delete contents[key]`
then rewrite the file. -/
def clear (contents : TokenFileContents) (key : String) : TokenFileContents :=
  fun k => if k = key then none else contents k

end TokenStore

namespace FileTokenStore

/-- FileTokenStore.get (part_001 lines 68-71), identical to TokenStore.get. -/
def get (contents : TokenFileContents) (key : String) : Option TokenSet :=
  contents key

/-- FileTokenStore.set (part_001 lines 73-77), identical to TokenStore.set. -/
def set (contents : TokenFileContents) (tokenSet : TokenSet) (key : String) :
    TokenFileContents :=
  fun k => if k = key then some tokenSet else contents k

/-- FileTokenStore.clear (part_001 lines 79-83), identical to TokenStore.clear. -/
def clear (contents : TokenFileContents) (key : String) : TokenFileContents :=
  fun k => if k = key then none else contents k

end FileTokenStore

/-- OAuthTokenResponse (whoop-oauth.ts lines 15-21); `refresh_token` is
`Option String` because the code treats it as possibly absent. -/
structure OAuthTokenResponse where
  access_token : String
  refresh_token : Option String
  expires_in : Int
  scope : String
  token_type : String
deriving Repr, DecidableEq

namespace WhoopOAuthClient

/-- normalizeTokenResponse (whoop-oauth.ts lines 115-124):
`expiresAt = Date.now() + data.expires_in * 1000 - 60_000` and
`refreshToken = data.refresh_token ?? previous?.refreshToken ?? empty-string`. -/
def normalizeTokenResponse (now : Int) (data : OAuthTokenResponse)
    (previous : Option TokenSet) : TokenSet :=
  { accessToken := data.access_token
    refreshToken := data.refresh_token.getD ((previous.map TokenSet.refreshToken).getD "")
    expiresAt := now + data.expires_in * 1000 - 60000
    scope := data.scope
    tokenType := data.token_type }

/-- exchangeCode (whoop-oauth.ts lines 67-86): POST grant_type
authorization_code with `code`; on success normalize (with no previous
record) and commit under `key`. `http` is the outcome of the POST. -/
def exchangeCode (store : TokenFileContents) (now : Int) (code : String)
    (http : Except String OAuthTokenResponse) (key : String) :
    Except String (TokenSet × TokenFileContents) :=
  match http with
  | Except.error e => Except.error e
  | Except.ok data =>
    let tokenSet := normalizeTokenResponse now data none
    Except.ok (tokenSet, TokenStore.set store tokenSet key)

/-- refreshToken (whoop-oauth.ts lines 88-113): load the existing record
(throwing if absent), POST grant_type refresh_token carrying
`existing.refreshToken` (the oracle receives the refresh token sent in the
body), normalize with `existing` as the previous record, and commit. -/
def refreshToken (store : TokenFileContents) (now : Int)
    (http : String → Except String OAuthTokenResponse) (key : String) :
    Except String (TokenSet × TokenFileContents) :=
  match TokenStore.get store key with
  | none => Except.error "No stored WHOOP refresh token"
  | some existing =>
    match http existing.refreshToken with
    | Except.error e => Except.error e
    | Except.ok data =>
      let tokenSet := normalizeTokenResponse now data (some existing)
      Except.ok (tokenSet, TokenStore.set store tokenSet key)

end WhoopOAuthClient

/-- Result of WhoopApiClient.getAccessToken, instrumented with the store
after the call and the number of `oauthClient.refreshToken` invocations the
call performed (the code has exactly one refresh call site, taken only in
the expired branch). -/
structure AccessTokenResult where
  accessToken : String
  store : TokenFileContents
  refreshCalls : Nat

namespace WhoopApiClient

/-- WhoopApiClient.getAccessToken (client.ts lines 21-33): load the record
for `key`, fail if absent; if `token.expiresAt <= Date.now()` refresh and
return the refreshed access token; otherwise return the stored access
token. -/
def getAccessToken (store : TokenFileContents) (now : Int)
    (http : String → Except String OAuthTokenResponse) (key : String) :
    Except String AccessTokenResult :=
  match TokenStore.get store key with
  | none => Except.error "No WHOOP token available. Complete the OAuth flow first."
  | some token =>
    if token.expiresAt ≤ now then
      match WhoopOAuthClient.refreshToken store now http key with
      | Except.error e => Except.error e
      | Except.ok (refreshed, store2) =>
        Except.ok { accessToken := refreshed.accessToken, store := store2, refreshCalls := 1 }
    else
      Except.ok { accessToken := token.accessToken, store := store, refreshCalls := 0 }

end WhoopApiClient

/-- A pendingStates entry (part_000 line 21):
`Map<string, { key: string; successRedirect?: string }>`. -/
structure PendingEntry where
  key : String
  successRedirect : Option String
deriving Repr, DecidableEq

/-- The in-memory pendingStates map of part_000. -/
abbrev PendingStates := String → Option PendingEntry

/-- Process state touched by the OAuth callback handler: the pendingStates
map and the token store contents. -/
structure CallbackState where
  pendingStates : PendingStates
  tokenStore : TokenFileContents

/-- HTTP response produced by the OAuth callback handler (part_000 lines
174-199). -/
inductive CallbackResponse where
  /-- `res.status(400).send(msg)` -/
  | badRequest (msg : String)
  /-- `res.status(500).send(...)` on a failed code exchange -/
  | serverError (msg : String)
  /-- `res.redirect(entry.successRedirect)` -/
  | redirect (url : String)
  /-- the plain `res.send` success page -/
  | success
deriving Repr, DecidableEq

/-- The OAuth callback handler (part_000 lines 174-199): require string
`code` and `state` query params; look the state up in pendingStates and
respond 400 if absent; otherwise exchange the code for the key held in the entry and,
only if the exchange succeeds, delete the state and respond with the
success redirect (or a plain success page); a failed exchange responds 500
and leaves pendingStates untouched. `http` is the outcome of the token
endpoint POST made by exchangeCode. -/
def handleOAuthCallback (st : CallbackState) (code : Option String)
    (state : Option String) (now : Int) (http : Except String OAuthTokenResponse) :
    CallbackResponse × CallbackState :=
  match code, state with
  | some code, some state =>
    match st.pendingStates state with
    | none => (CallbackResponse.badRequest "Unknown or expired OAuth state.", st)
    | some entry =>
      match WhoopOAuthClient.exchangeCode st.tokenStore now code http entry.key with
      | Except.error e =>
        (CallbackResponse.serverError ("Failed to exchange WHOOP authorization code: " ++ e), st)
      | Except.ok (_, store2) =>
        (match entry.successRedirect with
          | some u => CallbackResponse.redirect u
          | none => CallbackResponse.success,
         { pendingStates := fun s => if s = state then none else st.pendingStates s
           tokenStore := store2 })
  | _, _ => (CallbackResponse.badRequest "Missing OAuth code or state.", st)

/-- State owned by the POST /sse handler (part_000 line 214): the
`transports` map from session id to a transport instance (instances are
identified by a Nat; `nextTransport` is the id the next
`new StreamableHTTPServerTransport(...)` will receive, so ids below it are
the instances already constructed). -/
structure SessionState where
  transports : String → Option Nat
  nextTransport : Nat

/-- Outcome of one POST /sse request (part_000 lines 216-269). -/
inductive SseOutcome where
  /-- the request was forwarded to `transport.handleRequest` of the given
  transport instance, reachable afterwards under the given session id -/
  | handled (sessionId : String) (transport : Nat)
  /-- `res.status(status).json({ error: { code, message } })` -/
  | jsonError (status : Int) (code : Int) (message : String)
deriving Repr, DecidableEq

/-- The POST /sse handler (part_000 lines 216-269): with no session id
header and an initialize request, construct a new transport whose
`onsessioninitialized` callback registers `newSessionId ↦ transport` (the
SDK generates `newSessionId` via the supplied `sessionIdGenerator`, i.e.
`randomUUID()`, and fires the callback when it handles the initialize
request); with no session id otherwise, 400 Missing MCP session ID; with an
unknown session id, 404 Unknown MCP session and no state change; with a
known session id, forward to that transport. -/
def handlePostSse (st : SessionState) (sessionId : Option String)
    (isInit : Bool) (newSessionId : String) : SseOutcome × SessionState :=
  match sessionId with
  | none =>
    if isInit then
      (SseOutcome.handled newSessionId st.nextTransport,
       { transports := fun sid =>
           if sid = newSessionId then some st.nextTransport else st.transports sid
         nextTransport := st.nextTransport + 1 })
    else
      (SseOutcome.jsonError 400 (-32000) "Missing MCP session ID.", st)
  | some sid =>
    match st.transports sid with
    | none =>
      (SseOutcome.jsonError 404 (-32001) ("Unknown MCP session: " ++ sid), st)
    | some t => (SseOutcome.handled sid t, st)

/-- Transport-closure event. The source installs no `onclose` handler on
any transport and contains no `transports.delete` call, so the closure of
a transport leaves the transports map (and the rest of the session state)
unchanged. -/
def onTransportClose (st : SessionState) (closedSessionId : String) : SessionState :=
  st

/-- One hex digit (upper case), used by percent-encoding. -/
def hexDigitChar (n : Nat) : Char :=
  if n < 10 then Char.ofNat (48 + n) else Char.ofNat (55 + n)

/-- Percent-encoding of one byte, e.g. 32 becomes "%20". -/
def encodeByte (b : UInt8) : String :=
  String.mk [Char.ofNat 37, hexDigitChar (b.toNat / 16), hexDigitChar (b.toNat % 16)]

/-- RFC 3986 unreserved characters, which qs.stringify (default RFC 3986
format) leaves unencoded. -/
def isUnreservedChar (c : Char) : Bool :=
  c.isAlphanum || c = Char.ofNat 45 || c = Char.ofNat 46 || c = Char.ofNat 95 || c = Char.ofNat 126

/-- Percent-encode one character (UTF-8 bytes of the character when it is
not unreserved). -/
def urlEncodeChar (c : Char) : String :=
  if isUnreservedChar c then String.singleton c
  else String.join (((String.singleton c).toUTF8.toList).map encodeByte)

/-- Percent-encode a string as qs.stringify does for keys and values. -/
def urlEncode (s : String) : String :=
  String.join (s.toList.map urlEncodeChar)

/-- qs.stringify of a flat object (whoop-oauth.ts lines 56-62): the
key=value pairs, each side percent-encoded, joined with an ampersand in
object order. -/
def qsStringify (pairs : List (String × String)) : String :=
  String.intercalate "&" (pairs.map (fun p => urlEncode p.1 ++ "=" ++ urlEncode p.2))

/-- The part of config.ts that buildAuthorizationUrl reads: the client id,
the default scope list, and the module-level redirectUri. -/
structure WhoopConfig where
  clientId : String
  defaultScopes : List String
  redirectUri : String

/-- AuthorizationUrlParams (whoop-oauth.ts lines 8-13). -/
structure AuthorizationUrlParams where
  state : Option String
  scopes : Option (List String)
  redirect : Option String
  key : Option String

/-- The pair returned by buildAuthorizationUrl. -/
structure AuthorizationUrlResult where
  url : String
  state : String
deriving Repr, DecidableEq

namespace WhoopOAuthClient

/-- The authorizeUrl field of WhoopOAuthClient (whoop-oauth.ts line 24). -/
def authorizeUrl : String := "https://api.prod.whoop.com/oauth/oauth2/auth"

/-- buildAuthorizationUrl (whoop-oauth.ts lines 51-65): state defaults to
`crypto.randomUUID()` (the `uuid` argument), scopes to
`config.whoop.defaultScopes`, redirect to the module redirectUri; the url
is the authorization endpoint with the qs-stringified query of client_id,
redirect_uri, response_type=code, the space-joined scope list, and state.
No network activity occurs. -/
def buildAuthorizationUrl (cfg : WhoopConfig) (params : AuthorizationUrlParams)
    (uuid : String) : AuthorizationUrlResult :=
  let state := params.state.getD uuid
  let scopes := params.scopes.getD cfg.defaultScopes
  let redirect := params.redirect.getD cfg.redirectUri
  let query := qsStringify
    [("client_id", cfg.clientId),
     ("redirect_uri", redirect),
     ("response_type", "code"),
     ("scope", String.intercalate " " scopes),
     ("state", state)]
  { url := authorizeUrl ++ "?" ++ query, state := state }

end WhoopOAuthClient

/-- The empty token file mapping (a missing file reads as an empty
mapping). -/
def emptyTokenFile : TokenFileContents := fun _ => none

/-- Claim C7: set followed by get on the same key returns the very record
written (deep equality); writes are last-write-wins per key, other keys are
untouched, and the FileTokenStore backend satisfies the same round-trip. -/
theorem tokenStore_set_get_roundTrip (c : TokenFileContents) (r r2 : TokenSet)
    (k k2 : String) :
    TokenStore.get (TokenStore.set c r k) k = some r
  ∧ TokenStore.get (TokenStore.set (TokenStore.set c r k) r2 k) k = some r2
  ∧ (k2 ≠ k → TokenStore.get (TokenStore.set c r k) k2 = TokenStore.get c k2)
  ∧ FileTokenStore.get (FileTokenStore.set c r k) k = some r := by
  refine ⟨by simp [TokenStore.get, TokenStore.set],
          by simp [TokenStore.get, TokenStore.set],
          fun h => by simp [TokenStore.get, TokenStore.set, h],
          by simp [FileTokenStore.get, FileTokenStore.set]⟩

/-- Concrete check of the C7 round-trip theorem. -/
def c7record : TokenSet :=
  { accessToken := "A1", refreshToken := "R1", expiresAt := 1000,
    scope := "read:sleep", tokenType := "Bearer" }

theorem tokenStore_set_get_roundTrip_witness :
    ("other" : String) ≠ "default"
  ∧ TokenStore.get (TokenStore.set emptyTokenFile c7record "default") "other"
      = TokenStore.get emptyTokenFile "other" :=
  ⟨by decide,
   (tokenStore_set_get_roundTrip emptyTokenFile c7record c7record "default" "other").2.2.1
     (by decide)⟩

/-- Claim C8: clear followed by get on the same key returns absent, and
clear on a key with no stored record leaves the stored mapping pointwise
unchanged (clear is total, so it completes without error). -/
theorem tokenStore_clear_get (c : TokenFileContents) (k : String) :
    TokenStore.get (TokenStore.clear c k) k = none
  ∧ (c k = none → ∀ k2, TokenStore.clear c k k2 = c k2) := by
  refine ⟨by simp [TokenStore.get, TokenStore.clear], fun h k2 => ?_⟩
  by_cases hk : k2 = k
  · simp [TokenStore.clear, hk, h]
  · simp [TokenStore.clear, hk]

theorem tokenStore_clear_get_witness :
    emptyTokenFile "default" = none
  ∧ TokenStore.clear emptyTokenFile "default" "other" = emptyTokenFile "other" :=
  ⟨rfl, (tokenStore_clear_get emptyTokenFile "default").2 rfl "other"⟩

/-- Claim C2: every token record produced by normalization, whether
committed by exchangeCode or by refreshToken, has
`expiresAt = now + expires_in * 1000 - 60000`, the provider lifetime in
milliseconds minus the fixed 60,000 ms buffer, never the raw value. -/
theorem normalize_expiresAt_buffer (now : Int) (resp : OAuthTokenResponse)
    (prev : Option TokenSet) (store : TokenFileContents) (code key : String)
    (http : String → Except String OAuthTokenResponse) :
    (WhoopOAuthClient.normalizeTokenResponse now resp prev).expiresAt
        = now + resp.expires_in * 1000 - 60000
  ∧ (∀ ts st2,
      WhoopOAuthClient.exchangeCode store now code (Except.ok resp) key
          = Except.ok (ts, st2) →
      ts.expiresAt = now + resp.expires_in * 1000 - 60000
      ∧ TokenStore.get st2 key = some ts)
  ∧ (∀ existing, TokenStore.get store key = some existing →
      http existing.refreshToken = Except.ok resp →
      ∀ ts st2,
        WhoopOAuthClient.refreshToken store now http key = Except.ok (ts, st2) →
        ts.expiresAt = now + resp.expires_in * 1000 - 60000
        ∧ TokenStore.get st2 key = some ts) := by
  refine ⟨rfl, ?_, ?_⟩
  · intro ts st2 h
    simp only [WhoopOAuthClient.exchangeCode, Except.ok.injEq, Prod.mk.injEq] at h
    obtain ⟨rfl, rfl⟩ := h
    exact ⟨rfl, by simp [TokenStore.get, TokenStore.set]⟩
  · intro existing hget hhttp ts st2 h
    simp only [WhoopOAuthClient.refreshToken, hget, hhttp, Except.ok.injEq,
      Prod.mk.injEq] at h
    obtain ⟨rfl, rfl⟩ := h
    exact ⟨rfl, by simp [TokenStore.get, TokenStore.set]⟩

/-- Concrete check of the C2 theorem on the refresh path. -/
def c2existing : TokenSet :=
  { accessToken := "A1", refreshToken := "R1", expiresAt := 900000,
    scope := "read:sleep", tokenType := "Bearer" }

def c2resp : OAuthTokenResponse :=
  { access_token := "A2", refresh_token := some "R2", expires_in := 3600,
    scope := "read:sleep", token_type := "Bearer" }

def c2store : TokenFileContents := TokenStore.set emptyTokenFile c2existing "default"

def c2http : String → Except String OAuthTokenResponse := fun _ => Except.ok c2resp

theorem normalize_expiresAt_buffer_witness :
    (WhoopOAuthClient.normalizeTokenResponse 1000000 c2resp (some c2existing)).expiresAt
        = 1000000 + c2resp.expires_in * 1000 - 60000
  ∧ TokenStore.get
        (TokenStore.set c2store
          (WhoopOAuthClient.normalizeTokenResponse 1000000 c2resp (some c2existing))
          "default")
        "default"
      = some (WhoopOAuthClient.normalizeTokenResponse 1000000 c2resp (some c2existing)) :=
  (normalize_expiresAt_buffer 1000000 c2resp (some c2existing) c2store "abc" "default"
      c2http).2.2
    c2existing (by decide) rfl
    (WhoopOAuthClient.normalizeTokenResponse 1000000 c2resp (some c2existing))
    (TokenStore.set c2store
      (WhoopOAuthClient.normalizeTokenResponse 1000000 c2resp (some c2existing)) "default")
    rfl

/-- Claim C3: a refresh whose provider response omits refresh_token commits
a record whose refreshToken is the previously stored refresh token
unchanged, with the new access token and the buffered expiry. -/
theorem refreshToken_preserves_prior (store : TokenFileContents) (now : Int)
    (http : String → Except String OAuthTokenResponse) (key : String)
    (existing : TokenSet) (resp : OAuthTokenResponse) :
    TokenStore.get store key = some existing →
    http existing.refreshToken = Except.ok resp →
    resp.refresh_token = none →
    ∃ ts, WhoopOAuthClient.refreshToken store now http key
            = Except.ok (ts, TokenStore.set store ts key)
      ∧ ts.refreshToken = existing.refreshToken
      ∧ ts.accessToken = resp.access_token
      ∧ ts.expiresAt = now + resp.expires_in * 1000 - 60000 := by
  intro hget hhttp hrt
  refine ⟨WhoopOAuthClient.normalizeTokenResponse now resp (some existing), ?_, ?_, rfl, rfl⟩
  · simp [WhoopOAuthClient.refreshToken, hget, hhttp]
  · simp [WhoopOAuthClient.normalizeTokenResponse, hrt]

/-- Concrete check of the C3 theorem: prior refresh token R1, response with
access_token A2, expires_in 3600 and no refresh_token, taken at
now = 1000000; the result is A2 / R1 / now + 3540000. -/
def c3existing : TokenSet :=
  { accessToken := "A1", refreshToken := "R1", expiresAt := 999999,
    scope := "read:sleep", tokenType := "Bearer" }

def c3resp : OAuthTokenResponse :=
  { access_token := "A2", refresh_token := none, expires_in := 3600,
    scope := "read:sleep", token_type := "Bearer" }

def c3store : TokenFileContents := TokenStore.set emptyTokenFile c3existing "default"

def c3http : String → Except String OAuthTokenResponse := fun _ => Except.ok c3resp

theorem refreshToken_preserves_prior_witness :
    ∃ ts, WhoopOAuthClient.refreshToken c3store 1000000 c3http "default"
            = Except.ok (ts, TokenStore.set c3store ts "default")
      ∧ ts.refreshToken = "R1"
      ∧ ts.accessToken = "A2"
      ∧ ts.expiresAt = 1000000 + 3540000 := by
  obtain ⟨ts, h1, h2, h3, h4⟩ :=
    refreshToken_preserves_prior c3store 1000000 c3http "default" c3existing c3resp
      (by decide) rfl rfl
  exact ⟨ts, h1, h2, h3, by rw [h4]; decide⟩

/-- Claim C10: a code exchange whose provider response omits refresh_token
commits a record with refreshToken equal to the empty string (no stored
record is consulted), and a subsequent refreshToken call for that key sends
that empty string as the refresh_token in its request body. -/
theorem exchangeCode_empty_refresh_token (store : TokenFileContents) (now : Int)
    (code key : String) (resp : OAuthTokenResponse) :
    resp.refresh_token = none →
    ∃ ts st2,
      WhoopOAuthClient.exchangeCode store now code (Except.ok resp) key
          = Except.ok (ts, st2)
      ∧ ts.refreshToken = ""
      ∧ TokenStore.get st2 key = some ts
      ∧ (∀ (now2 : Int) (http2 : String → Except String OAuthTokenResponse)
            (d : OAuthTokenResponse),
          http2 "" = Except.ok d →
          WhoopOAuthClient.refreshToken st2 now2 http2 key
            = Except.ok (WhoopOAuthClient.normalizeTokenResponse now2 d (some ts),
                TokenStore.set st2
                  (WhoopOAuthClient.normalizeTokenResponse now2 d (some ts)) key)) := by
  intro hrt
  refine ⟨WhoopOAuthClient.normalizeTokenResponse now resp none,
    TokenStore.set store (WhoopOAuthClient.normalizeTokenResponse now resp none) key,
    rfl, ?_, ?_, ?_⟩
  · simp [WhoopOAuthClient.normalizeTokenResponse, hrt]
  · simp [TokenStore.get, TokenStore.set]
  · intro now2 http2 d hhttp
    have hg : TokenStore.get
        (TokenStore.set store (WhoopOAuthClient.normalizeTokenResponse now resp none) key)
        key = some (WhoopOAuthClient.normalizeTokenResponse now resp none) := by
      simp [TokenStore.get, TokenStore.set]
    have hrt0 : (WhoopOAuthClient.normalizeTokenResponse now resp none).refreshToken = "" := by
      simp [WhoopOAuthClient.normalizeTokenResponse, hrt]
    simp [WhoopOAuthClient.refreshToken, hg, hrt0, hhttp]

/-- Concrete check of the C10 theorem. -/
def c10resp : OAuthTokenResponse :=
  { access_token := "A9", refresh_token := none, expires_in := 3600,
    scope := "read:sleep", token_type := "Bearer" }

theorem exchangeCode_empty_refresh_token_witness :
    ∃ ts st2,
      WhoopOAuthClient.exchangeCode emptyTokenFile 1000000 "abc" (Except.ok c10resp) "default"
          = Except.ok (ts, st2)
      ∧ ts.refreshToken = ""
      ∧ TokenStore.get st2 "default" = some ts
      ∧ (∀ (now2 : Int) (http2 : String → Except String OAuthTokenResponse)
            (d : OAuthTokenResponse),
          http2 "" = Except.ok d →
          WhoopOAuthClient.refreshToken st2 now2 http2 "default"
            = Except.ok (WhoopOAuthClient.normalizeTokenResponse now2 d (some ts),
                TokenStore.set st2
                  (WhoopOAuthClient.normalizeTokenResponse now2 d (some ts)) "default")) :=
  exchangeCode_empty_refresh_token emptyTokenFile 1000000 "abc" "default" c10resp rfl

/-- Claim C1: getAccessToken fails with the not-authorized error when no
record is stored for the key; with a stored record whose expiresAt <= now
it performs exactly one refresh through the OAuth client and returns the
refreshed access token; with expiresAt > now it returns the stored access
token unchanged with zero refresh calls. -/
theorem getAccessToken_cases (store : TokenFileContents) (now : Int)
    (http : String → Except String OAuthTokenResponse) (key : String) :
    (TokenStore.get store key = none →
      WhoopApiClient.getAccessToken store now http key
        = Except.error "No WHOOP token available. Complete the OAuth flow first.")
  ∧ (∀ token resp, TokenStore.get store key = some token →
      token.expiresAt ≤ now →
      http token.refreshToken = Except.ok resp →
      ∃ r, WhoopApiClient.getAccessToken store now http key = Except.ok r
        ∧ r.refreshCalls = 1
        ∧ r.accessToken = resp.access_token)
  ∧ (∀ token, TokenStore.get store key = some token →
      now < token.expiresAt →
      WhoopApiClient.getAccessToken store now http key
        = Except.ok { accessToken := token.accessToken, store := store, refreshCalls := 0 }) := by
  refine ⟨?_, ?_, ?_⟩
  · intro h
    simp [WhoopApiClient.getAccessToken, h]
  · intro token resp hget hexp hhttp
    refine ⟨{ accessToken := resp.access_token,
              store := TokenStore.set store
                (WhoopOAuthClient.normalizeTokenResponse now resp (some token)) key,
              refreshCalls := 1 }, ?_, rfl, rfl⟩
    simp [WhoopApiClient.getAccessToken, WhoopOAuthClient.refreshToken, hget, hexp, hhttp,
      WhoopOAuthClient.normalizeTokenResponse]
  · intro token hget hlt
    simp [WhoopApiClient.getAccessToken, hget, not_le.mpr hlt]

/-- Concrete check of the C1 theorem on the expired branch. -/
def c1token : TokenSet :=
  { accessToken := "A1", refreshToken := "R1", expiresAt := 500,
    scope := "read:sleep", tokenType := "Bearer" }

def c1resp : OAuthTokenResponse :=
  { access_token := "A2", refresh_token := some "R2", expires_in := 3600,
    scope := "read:sleep", token_type := "Bearer" }

def c1store : TokenFileContents := TokenStore.set emptyTokenFile c1token "default"

def c1http : String → Except String OAuthTokenResponse := fun _ => Except.ok c1resp

theorem getAccessToken_cases_witness :
    ∃ r, WhoopApiClient.getAccessToken c1store 1000 c1http "default" = Except.ok r
      ∧ r.refreshCalls = 1
      ∧ r.accessToken = "A2" :=
  (getAccessToken_cases c1store 1000 c1http "default").2.1 c1token c1resp
    (by decide) (by decide) rfl

/-- Claim C4 (amended): a callback for a registered state whose code
exchange succeeds consumes the entry (responding per its successRedirect)
and deletes it, after which a further callback for that state signals the
unknown-or-expired-state error without changing the registry; a callback
whose exchange fails leaves the entry registered and the whole state
unchanged; a callback for a state never issued signals the
unknown-or-expired-state error without changing the registry. -/
theorem oauthCallback_consume_spec (ps : PendingStates) (ts0 : TokenFileContents)
    (s code : String) (entry : PendingEntry) (now : Int)
    (resp : OAuthTokenResponse) (e : String) :
    (ps s = some entry →
      (handleOAuthCallback ⟨ps, ts0⟩ (some code) (some s) now (Except.ok resp)).2.pendingStates s
          = none
      ∧ (handleOAuthCallback ⟨ps, ts0⟩ (some code) (some s) now (Except.ok resp)).1
          = (match entry.successRedirect with
             | some u => CallbackResponse.redirect u
             | none => CallbackResponse.success)
      ∧ handleOAuthCallback
            (handleOAuthCallback ⟨ps, ts0⟩ (some code) (some s) now (Except.ok resp)).2
            (some code) (some s) now (Except.ok resp)
          = (CallbackResponse.badRequest "Unknown or expired OAuth state.",
             (handleOAuthCallback ⟨ps, ts0⟩ (some code) (some s) now (Except.ok resp)).2))
  ∧ (ps s = some entry →
      (handleOAuthCallback ⟨ps, ts0⟩ (some code) (some s) now (Except.error e)).2.pendingStates s
          = some entry
      ∧ (handleOAuthCallback ⟨ps, ts0⟩ (some code) (some s) now (Except.error e)).2 = ⟨ps, ts0⟩)
  ∧ (ps s = none →
      handleOAuthCallback ⟨ps, ts0⟩ (some code) (some s) now (Except.ok resp)
        = (CallbackResponse.badRequest "Unknown or expired OAuth state.", ⟨ps, ts0⟩)) := by
  refine ⟨?_, ?_, ?_⟩
  · intro h
    simp [handleOAuthCallback, WhoopOAuthClient.exchangeCode, h]
  · intro h
    simp [handleOAuthCallback, WhoopOAuthClient.exchangeCode, h]
  · intro h
    simp [handleOAuthCallback, h]

/-- Concrete check of the amended C4 theorem on the success path. -/
def c4entry : PendingEntry := { key := "default", successRedirect := none }

def c4ps : PendingStates := fun s => if s = "S" then some c4entry else none

def c4resp : OAuthTokenResponse :=
  { access_token := "A4", refresh_token := some "R4", expires_in := 3600,
    scope := "read:sleep", token_type := "Bearer" }

theorem oauthCallback_consume_spec_witness :
    (handleOAuthCallback ⟨c4ps, emptyTokenFile⟩ (some "abc") (some "S") 0
        (Except.ok c4resp)).2.pendingStates "S" = none
  ∧ (handleOAuthCallback ⟨c4ps, emptyTokenFile⟩ (some "abc") (some "S") 0
        (Except.ok c4resp)).1
      = (match c4entry.successRedirect with
         | some u => CallbackResponse.redirect u
         | none => CallbackResponse.success)
  ∧ handleOAuthCallback
        (handleOAuthCallback ⟨c4ps, emptyTokenFile⟩ (some "abc") (some "S") 0
          (Except.ok c4resp)).2
        (some "abc") (some "S") 0 (Except.ok c4resp)
      = (CallbackResponse.badRequest "Unknown or expired OAuth state.",
         (handleOAuthCallback ⟨c4ps, emptyTokenFile⟩ (some "abc") (some "S") 0
           (Except.ok c4resp)).2) :=
  (oauthCallback_consume_spec c4ps emptyTokenFile "S" "abc" c4entry 0 c4resp "err").1
    (by decide)

/-- Counterexample to claim C4 as stated: when the code exchange fails the
handler does not delete the registered state, so the first consume of the
state does not remove it and a second consume does not signal the
unknown-or-expired-state error. -/
theorem oauthCallback_not_single_atomic_take :
    (handleOAuthCallback ⟨c4ps, emptyTokenFile⟩ (some "abc") (some "S") 0
        (Except.error "network failure")).2.pendingStates "S" = some c4entry
  ∧ (handleOAuthCallback
        (handleOAuthCallback ⟨c4ps, emptyTokenFile⟩ (some "abc") (some "S") 0
          (Except.error "network failure")).2
        (some "abc") (some "S") 0 (Except.error "network failure")).1
      ≠ CallbackResponse.badRequest "Unknown or expired OAuth state." := by
  constructor
  · rfl
  · decide

/-- Claim C5: an initialization request with no session id registers the
freshly generated id (previously unseen, by the freshness of randomUUID,
taken as a hypothesis) bound to a newly constructed transport distinct from
every registered one, and a later request bearing that id is forwarded to
that same transport; a non-initialization request with no session id is
rejected with the missing-session error; a request with an unknown session
id is rejected with the unknown-session error and the session map is
unchanged. -/
theorem handlePostSse_routing (st : SessionState) (uuid uuid2 sid : String) (b : Bool) :
    (st.transports uuid = none →
      (∀ s t, st.transports s = some t → t < st.nextTransport) →
      ∃ st2 : SessionState,
        handlePostSse st none true uuid = (SseOutcome.handled uuid st.nextTransport, st2)
        ∧ (∀ s t, st.transports s = some t → t ≠ st.nextTransport)
        ∧ st2.transports uuid = some st.nextTransport
        ∧ handlePostSse st2 (some uuid) b uuid2
            = (SseOutcome.handled uuid st.nextTransport, st2))
  ∧ handlePostSse st none false uuid
      = (SseOutcome.jsonError 400 (-32000) "Missing MCP session ID.", st)
  ∧ (st.transports sid = none →
      handlePostSse st (some sid) b uuid
        = (SseOutcome.jsonError 404 (-32001) ("Unknown MCP session: " ++ sid), st)) := by
  refine ⟨?_, rfl, ?_⟩
  · intro hfresh hinv
    refine ⟨_, rfl, fun s t hst => Nat.ne_of_lt (hinv s t hst), ?_, ?_⟩
    · simp
    · simp [handlePostSse]
  · intro h
    simp [handlePostSse, h]

/-- Concrete check of the C5 theorem starting from an empty session map. -/
def c5state : SessionState := { transports := fun _ => none, nextTransport := 0 }

theorem handlePostSse_routing_witness :
    ∃ st2 : SessionState,
      handlePostSse c5state none true "u1" = (SseOutcome.handled "u1" 0, st2)
      ∧ (∀ s t, c5state.transports s = some t → t ≠ 0)
      ∧ st2.transports "u1" = some 0
      ∧ handlePostSse st2 (some "u1") false "u2" = (SseOutcome.handled "u1" 0, st2) :=
  (handlePostSse_routing c5state "u1" "u2" "x" false).1 rfl
    (by intro s t h; simp [c5state] at h)

/-- Claim C6, evaluated on the code: the source installs no closure
callback and never deletes from the transports map, so after the transport
of the registered session sid1 closes, the session is still present in the
map and still routable, contradicting the claimed removal (the spec marks
this as the known deficiency of the source). -/
def c6state : SessionState :=
  { transports := fun sid => if sid = "sid1" then some 0 else none, nextTransport := 1 }

theorem sessionMap_retains_closed_session :
    (onTransportClose c6state "sid1").transports "sid1" = some 0
  ∧ (handlePostSse (onTransportClose c6state "sid1") (some "sid1") false "u9").1
      = SseOutcome.handled "sid1" 0 := by
  constructor
  · decide
  · decide

/-- Claim C9: buildAuthorizationUrl (a pure function of its inputs, so no
network contact) returns the generated state unchanged when no state
override is supplied, builds the authorization endpoint URL carrying
client_id, redirect_uri, response_type=code, the space-joined scope list
and that state, and distinct generated values yield distinct states (the
generation itself is delegated to crypto.randomUUID). -/
theorem buildAuthorizationUrl_spec (cfg : WhoopConfig) (scopes : Option (List String))
    (redirect : Option String) (k : Option String) (uuid uuid2 : String) :
    (WhoopOAuthClient.buildAuthorizationUrl cfg ⟨none, scopes, redirect, k⟩ uuid).state = uuid
  ∧ (WhoopOAuthClient.buildAuthorizationUrl cfg ⟨none, scopes, redirect, k⟩ uuid).url
      = WhoopOAuthClient.authorizeUrl ++ "?" ++ qsStringify
          [("client_id", cfg.clientId),
           ("redirect_uri", redirect.getD cfg.redirectUri),
           ("response_type", "code"),
           ("scope", String.intercalate " " (scopes.getD cfg.defaultScopes)),
           ("state", uuid)]
  ∧ (uuid ≠ uuid2 →
      (WhoopOAuthClient.buildAuthorizationUrl cfg ⟨none, scopes, redirect, k⟩ uuid).state
        ≠ (WhoopOAuthClient.buildAuthorizationUrl cfg ⟨none, scopes, redirect, k⟩ uuid2).state) :=
  ⟨rfl, rfl, fun h => h⟩

/-- Concrete check of the C9 theorem. -/
def c9cfg : WhoopConfig :=
  { clientId := "cid",
    defaultScopes := ["read:sleep", "read:cycles", "read:profile"],
    redirectUri := "https://example.com/oauth/whoop/callback" }

theorem buildAuthorizationUrl_spec_witness :
    ("u1" : String) ≠ "u2"
  ∧ (WhoopOAuthClient.buildAuthorizationUrl c9cfg ⟨none, none, none, none⟩ "u1").state
      ≠ (WhoopOAuthClient.buildAuthorizationUrl c9cfg ⟨none, none, none, none⟩ "u2").state :=
  ⟨by decide, (buildAuthorizationUrl_spec c9cfg none none none "u1" "u2").2.2 (by decide)⟩
